import Mathlib

/-!
# CheapFinder API — verification of the aggregation/ranking engine,
rate limiter, search endpoint and Etsy OAuth PKCE helpers.

Shallow embedding of `src/server.js` and `src/oauth_etsy.js`.
JavaScript numbers are modelled as exact rationals (`ℚ`); absent object
fields are modelled as `none`, so the JS helper `num(v, d)` (which falls
back to `d` whenever `Number(v)` is not finite) becomes `Option.getD`.
String query parameters that the server immediately converts with
`Number(...)` are modelled as `Option ℚ` (`some` iff the raw string
converts to a finite number).
-/

namespace CheapFinder

/-- JS helper `num(v, d)` from server.js line 52: the value when it is a
finite number, otherwise the default. -/
def num (v : Option ℚ) (d : ℚ) : ℚ := v.getD d

/-- `Math.round` (rounds half away from zero toward +∞). -/
def jsRound (x : ℚ) : ℤ := (x + 1/2).floor

/-- `landed(p, s, t) = Math.round((p + s + t) * 100) / 100` (server.js line 54). -/
def landed (p s t : ℚ) : ℚ := (jsRound ((p + s + t) * 100) : ℚ) / 100

/-- A normalized listing; numeric fields are optional because adapter-supplied
records may omit them (the mock generator always fills them in). -/
structure Listing where
  source : String
  title : String
  seller : String
  rating : Option ℚ
  reviews : Option ℚ
  variant : String
  price : Option ℚ
  shipping : Option ℚ
  estimated_tax : Option ℚ
  eta_days : Option ℚ
  landed_price : Option ℚ
  listing_url : String
deriving DecidableEq, Repr

/-- The deterministic mock generator `mockItemsForQuery` (server.js 57-65):
four fixed listings whose titles embed the query, with `landed_price`
computed from price, shipping and tax. -/
def mockItemsForQuery (q : String) : List Listing :=
  let base : List Listing :=
    [ { source := "Etsy", title := q ++ " Alpha", seller := "Shop 111",
        rating := some (47/10), reviews := some 120, variant := "Default",
        price := some (1999/100), shipping := some (499/100), estimated_tax := some 0,
        eta_days := some 3, landed_price := none,
        listing_url := "https://etsy.com/listing/1" },
      { source := "Shopify (Aggregator)", title := q ++ " Beta", seller := "Brand X",
        rating := some (23/5), reviews := some 803, variant := "Default",
        price := some 27, shipping := some 9, estimated_tax := some 0,
        eta_days := some 5, landed_price := none,
        listing_url := "https://brandx.com/products/beta" },
      { source := "Etsy", title := q ++ " Gamma", seller := "Shop 222",
        rating := some (22/5), reviews := some 52, variant := "Default",
        price := some 16, shipping := some (649/100), estimated_tax := some 0,
        eta_days := some 6, landed_price := none,
        listing_url := "https://etsy.com/listing/2" },
      { source := "Shopify (Curated)", title := q ++ " Delta", seller := "Brand Y",
        rating := some (24/5), reviews := some 431, variant := "Default",
        price := some 31, shipping := some 0, estimated_tax := some 0,
        eta_days := some 4, landed_price := none,
        listing_url := "https://brandy.com/products/delta" } ]
  base.map fun it =>
    { it with landed_price := some (landed (num it.price 0) (num it.shipping 0) (num it.estimated_tax 0)) }

/-! ## Sort comparator (server.js 92-97)

`items.sort((a,b) => (num(a.landed_price)-num(b.landed_price)) ||
(num(b.rating)-num(a.rating)) || (num(b.reviews)-num(a.reviews)) ||
(num(a.eta_days,999)-num(b.eta_days,999)))` — JS `x || y` yields `x`
unless `x` is `0`.  JS `Array.prototype.sort` is a stable sort with
respect to the comparator, which we model as stable insertion sort on the
relation `jsCmp a b ≤ 0`. -/

/-- The JS comparator of server.js 92-97: the first nonzero key
difference, else 0. -/
def jsCmp (a b : Listing) : ℚ :=
  let d1 := num a.landed_price 0 - num b.landed_price 0
  if d1 ≠ 0 then d1 else
  let d2 := num b.rating 0 - num a.rating 0
  if d2 ≠ 0 then d2 else
  let d3 := num b.reviews 0 - num a.reviews 0
  if d3 ≠ 0 then d3 else
  num a.eta_days 999 - num b.eta_days 999

/-- "a sorts no later than b" for the JS comparator. -/
def jsLe (a b : Listing) : Prop := jsCmp a b ≤ 0

instance : DecidableRel jsLe := fun a b => by unfold jsLe; infer_instance

/-- First sort key: landed price (ascending). -/
def key1 (a : Listing) : ℚ := num a.landed_price 0
/-- Second sort key: rating (descending). -/
def key2 (a : Listing) : ℚ := num a.rating 0
/-- Third sort key: review count (descending). -/
def key3 (a : Listing) : ℚ := num a.reviews 0
/-- Fourth sort key: eta_days (ascending, missing treated as sentinel 999). -/
def key4 (a : Listing) : ℚ := num a.eta_days 999

/-- The four-key lexicographic ordering rule of the spec (§4.3 step 6):
ascending landed price, then rating descending, then reviews descending,
then eta_days ascending with missing values as the sentinel 999. -/
def specLe (a b : Listing) : Prop :=
  key1 a < key1 b ∨ (key1 a = key1 b ∧
    (key2 b < key2 a ∨ (key2 a = key2 b ∧
      (key3 b < key3 a ∨ (key3 a = key3 b ∧ key4 a ≤ key4 b)))))

instance : DecidableRel specLe := fun a b => by unfold specLe; infer_instance

/-- The stable sort of server.js 92-97. -/
def sortItems (items : List Listing) : List Listing := List.insertionSort jsLe items

/-! ## String helpers mirroring the JS string operations -/

/-- JS `String.prototype.toLowerCase` (ASCII as used here). -/
def strLower (s : String) : String := String.mk (s.data.map Char.toLower)

/-- JS `String.prototype.trim`. -/
def strTrim (s : String) : String :=
  String.mk (((s.data.dropWhile Char.isWhitespace).reverse.dropWhile Char.isWhitespace).reverse)

/-- JS helper `str(v, d)` from server.js line 53: the trimmed string when
it is a non-empty string, else the default. -/
def strD (v : Option String) (d : String) : String :=
  match v with
  | some s => if strTrim s ≠ "" then strTrim s else d
  | none => d

/-- JS `"a,b".split(",")` on character lists. -/
def splitComma : List Char → List (List Char)
  | [] => [[]]
  | c :: rest =>
    if c = ',' then [] :: splitComma rest
    else
      match splitComma rest with
      | [] => [[c]]
      | g :: gs => (c :: g) :: gs

/-- Does character list `l` start with `p`? -/
def listStarts : List Char → List Char → Bool
  | [], _ => true
  | _ :: _, [] => false
  | p :: ps, c :: cs => p = c && listStarts ps cs

/-- Does `p` occur as a contiguous run inside `l`? -/
def containsList (p : List Char) : List Char → Bool
  | [] => listStarts p []
  | c :: cs => listStarts p (c :: cs) || containsList p cs

/-- JS `s.includes(p)`. -/
def containsSub (s p : String) : Bool := containsList p.data s.data

/-! ## Aggregation engine (server.js 68-100) -/

/-- Engine arguments, as passed by the /search handler. -/
structure SearchArgs where
  q : String
  zip : String
  minRating : ℚ
  minReviews : ℚ
  maxPrice : ℚ
  sourcesCsv : String
  limit : ℚ
deriving DecidableEq, Repr

/-- Process environment and adapter outcome relevant to one search:
`MOCK_MODE`, presence of `ETSY_API_KEY` / `ETSY_ACCESS_TOKEN`, and what
`etsySearch` would produce (success with a list, or a thrown error). -/
structure Env where
  mockMode : Bool
  hasEtsyApiKey : Bool
  hasEtsyAccessToken : Bool
  etsyResult : Except String (List Listing)
deriving Repr

/-- server.js line 69: the allow-list parsed from the sources CSV (falsy
CSV falls back to the default), split on commas, trimmed, lowercased,
empty entries dropped. -/
def parseAllow (csv : String) : List String :=
  ((splitComma (if csv = "" then "etsy,shopify_agg,shopify_curated" else csv).data).map
    (fun cs => strLower (strTrim (String.mk cs)))).filter (fun s => s ≠ "")

/-- server.js line 72: the etsy adapter runs only outside mock mode, with
both credentials configured, and with "etsy" in the allow-list. -/
def canEtsy (env : Env) (csv : String) : Bool :=
  !env.mockMode && env.hasEtsyApiKey && env.hasEtsyAccessToken
    && decide ("etsy" ∈ parseAllow csv)

/-- server.js 73-79: the listings the etsy step pushes — the adapter's
results on success, nothing when disabled or when the adapter throws
(the error is only logged). -/
def etsyContribution (env : Env) (csv : String) : List Listing :=
  if canEtsy env csv then
    match env.etsyResult with
    | .ok l => l
    | .error _ => []
  else []

/-- server.js 81-83: mock shopify listings, pushed when either shopify key
is allowed. -/
def shopifyContribution (csv : String) (q : String) : List Listing :=
  if "shopify_agg" ∈ parseAllow csv ∨ "shopify_curated" ∈ parseAllow csv then
    (mockItemsForQuery q).filter (fun it => containsSub (strLower it.source) "shopify")
  else []

/-- server.js 70-83: the merged pre-fallback item list. -/
def mergedItems (env : Env) (args : SearchArgs) : List Listing :=
  etsyContribution env args.sourcesCsv ++ shopifyContribution args.sourcesCsv args.q

/-- server.js line 85: fall back to the full mock set when the merge is empty. -/
def afterFallback (env : Env) (args : SearchArgs) : List Listing :=
  let m := mergedItems env args
  if m = [] then mockItemsForQuery args.q else m

/-- server.js line 87: the rating filter, applied only for a positive bound. -/
def filterRating (minRating : ℚ) (items : List Listing) : List Listing :=
  if minRating > 0 then items.filter (fun it => decide (num it.rating 0 ≥ minRating)) else items

/-- server.js line 88: the reviews filter, applied only for a positive bound. -/
def filterReviews (minReviews : ℚ) (items : List Listing) : List Listing :=
  if minReviews > 0 then items.filter (fun it => decide (num it.reviews 0 ≥ minReviews)) else items

/-- server.js line 89: the price filter, applied only for a positive bound. -/
def filterPrice (maxPrice : ℚ) (items : List Listing) : List Listing :=
  if maxPrice > 0 then items.filter (fun it => decide (num it.price 0 ≤ maxPrice)) else items

/-- server.js 87-89: the three filter stages in source order. -/
def filteredStage (env : Env) (args : SearchArgs) : List Listing :=
  filterPrice args.maxPrice (filterReviews args.minReviews (filterRating args.minRating (afterFallback env args)))

/-- server.js line 91: `landed_price` becomes the adapter-supplied value when
that is a finite number, else the freshly computed landed price. -/
def recomputeLanded (it : Listing) : Listing :=
  let lp := num it.landed_price (landed (num it.price 0) (num it.shipping 0) (num it.estimated_tax 0))
  { it with landed_price := some lp }

/-- JS `ToIntegerOrInfinity`: truncation toward zero. -/
def jsTrunc (x : ℚ) : ℤ := if 0 ≤ x then x.floor else -((-x).floor)

/-- JS `xs.slice(0, e)`: a negative end counts from the end of the list. -/
def jsSliceTo (e : ℚ) (xs : List Listing) : List Listing :=
  let t := jsTrunc e
  if t < 0 then xs.take ((xs.length : ℤ) + t).toNat else xs.take t.toNat

/-- The aggregation engine `searchAllSources` (server.js 68-100): merge,
fallback, filter, landed-price map, stable four-key sort, truncate. -/
def searchAllSources (env : Env) (args : SearchArgs) : List Listing :=
  jsSliceTo args.limit (sortItems ((filteredStage env args).map recomputeLanded))

/-! ## Search endpoint (server.js 103-118) -/

/-- Raw query parameters of a GET /search request.  Numeric parameters are
`some x` exactly when the raw value converts to the finite number `x`. -/
structure RawQuery where
  q : Option String
  zip : Option String
  limit : Option ℚ
  minRating : Option ℚ
  minReviews : Option ℚ
  maxPrice : Option ℚ
  sources : Option String
deriving DecidableEq, Repr

/-- The endpoint's response: 400 with an error message, or 200 with items. -/
inductive SearchResponse where
  | badRequest (msg : String)
  | ok (items : List Listing)
deriving DecidableEq, Repr

/-- server.js 105-111: parameter parsing.  `none` when `q` is missing or
blank; otherwise the defaulted and clamped engine arguments (note the
limit is clamped into [1, 100], never rejected). -/
def parseArgs (rq : RawQuery) : Option SearchArgs :=
  let q := strD rq.q ""
  if q = "" then none
  else some
    { q := q
      zip := strD rq.zip "90001"
      minRating := num rq.minRating 0
      minReviews := num rq.minReviews 0
      maxPrice := num rq.maxPrice 0
      sourcesCsv := strD rq.sources "etsy,shopify_agg,shopify_curated"
      limit := max 1 (min 100 (num rq.limit 10)) }

/-- The GET /search handler (server.js 103-118): 400 on missing `q`,
otherwise the engine's items, returned unmodified. -/
def searchEndpoint (env : Env) (rq : RawQuery) : SearchResponse :=
  match parseArgs rq with
  | none => .badRequest "Missing q"
  | some args => .ok (searchAllSources env args)

/-! ## Rate limiter (server.js 24-43) -/

/-- `WINDOW_MS` (server.js line 26). -/
def WINDOW_MS : ℤ := 60000
/-- `MAX_REQ` (server.js line 27). -/
def MAX_REQ : ℕ := 30

/-- One identity's record in the `hits` map. -/
structure RateRec where
  count : ℕ
  ts : ℤ
deriving DecidableEq, Repr

/-- One pass through the limiter middleware (server.js 28-43) for a given
identity: the admission decision and the identity's new record. -/
def admitOne (rec : Option RateRec) (now : ℤ) : Bool × RateRec :=
  match rec with
  | none => (true, ⟨1, now⟩)
  | some r =>
    if now - r.ts > WINDOW_MS then (true, ⟨1, now⟩)
    else if r.count ≥ MAX_REQ then (false, r)
    else (true, ⟨r.count + 1, r.ts⟩)

/-- The admission decisions for a sequence of request times from one
identity, starting from a given record. -/
def runLimiter (rec : Option RateRec) : List ℤ → List Bool
  | [] => []
  | t :: ts =>
    let s := admitOne rec t
    s.1 :: runLimiter (some s.2) ts

/-! ## Etsy OAuth PKCE helpers (oauth_etsy.js)

Bytes are `ℕ` values below 256; `sha256Bytes` implements FIPS 180-4
SHA-256 (what `crypto.createHash("sha256")` computes), and `b64url`
implements `b64url` of oauth_etsy.js 8-10: standard base64, then `+`→`-`,
`/`→`_`, and trailing `=` stripped. -/

/-- 32-bit wraparound. -/
def w32 (x : ℕ) : ℕ := x % 4294967296

/-- 32-bit rotate right. -/
def rotr (n x : ℕ) : ℕ := w32 ((x >>> n) ||| (x <<< (32 - n)))

/-- SHA-256 round constants. -/
def K64 : List ℕ :=
  [1116352408, 1899447441, 3049323471, 3921009573, 961987163,
   1508970993, 2453635748, 2870763221, 3624381080, 310598401,
   607225278, 1426881987, 1925078388, 2162078206, 2614888103,
   3248222580, 3835390401, 4022224774, 264347078, 604807628,
   770255983, 1249150122, 1555081692, 1996064986, 2554220882,
   2821834349, 2952996808, 3210313671, 3336571891, 3584528711,
   113926993, 338241895, 666307205, 773529912, 1294757372,
   1396182291, 1695183700, 1986661051, 2177026350, 2456956037,
   2730485921, 2820302411, 3259730800, 3345764771, 3516065817,
   3600352804, 4094571909, 275423344, 430227734, 506948616,
   659060556, 883997877, 958139571, 1322822218, 1537002063,
   1747873779, 1955562222, 2024104815, 2227730452, 2361852424,
   2428436474, 2756734187, 3204031479, 3329325298]

/-- SHA-256 initial hash value. -/
def H0 : List ℕ :=
  [1779033703, 3144134277, 1013904242, 2773480762,
   1359893119, 2600822924, 528734635, 1541459225]

/-- `x` as `k` big-endian bytes. -/
def beBytes : ℕ → ℕ → List ℕ
  | 0, _ => []
  | k + 1, x => beBytes k (x / 256) ++ [x % 256]

/-- SHA-256 message padding: `0x80`, zeros to 56 mod 64, then the
64-bit big-endian bit length. -/
def padMsg (msg : List ℕ) : List ℕ :=
  msg ++ 0x80 :: List.replicate ((119 - msg.length % 64) % 64) 0 ++ beBytes 8 (msg.length * 8)

/-- Big-endian 32-bit words from bytes. -/
def toWords : List ℕ → List ℕ
  | b1 :: b2 :: b3 :: b4 :: rest => (((b1 * 256 + b2) * 256 + b3) * 256 + b4) :: toWords rest
  | _ => []

/-- SHA-256 small sigma 0. -/
def smallSig0 (x : ℕ) : ℕ := rotr 7 x ^^^ rotr 18 x ^^^ (x >>> 3)
/-- SHA-256 small sigma 1. -/
def smallSig1 (x : ℕ) : ℕ := rotr 17 x ^^^ rotr 19 x ^^^ (x >>> 10)
/-- SHA-256 big sigma 0. -/
def bigSig0 (x : ℕ) : ℕ := rotr 2 x ^^^ rotr 13 x ^^^ rotr 22 x
/-- SHA-256 big sigma 1. -/
def bigSig1 (x : ℕ) : ℕ := rotr 6 x ^^^ rotr 11 x ^^^ rotr 25 x

/-- Extend the 16 block words with `k` further schedule words. -/
def extendW (k : ℕ) (w : List ℕ) : List ℕ :=
  match k with
  | 0 => w
  | k + 1 =>
    let n := w.length
    let next := w32 (smallSig1 (w.getD (n - 2) 0) + w.getD (n - 7) 0 + smallSig0 (w.getD (n - 15) 0) + w.getD (n - 16) 0)
    extendW k (w ++ [next])

/-- Working state for the SHA-256 compression rounds. -/
structure SHAState where
  a : ℕ
  b : ℕ
  c : ℕ
  d : ℕ
  e : ℕ
  f : ℕ
  g : ℕ
  h : ℕ

/-- One SHA-256 compression round for schedule word `wi` and constant `ki`. -/
def shaRound (st : SHAState) (p : ℕ × ℕ) : SHAState :=
  let t1 := w32 (st.h + bigSig1 st.e + ((st.e &&& st.f) ^^^ ((st.e ^^^ 4294967295) &&& st.g)) + p.2 + p.1)
  let t2 := w32 (bigSig0 st.a + ((st.a &&& st.b) ^^^ (st.a &&& st.c) ^^^ (st.b &&& st.c)))
  ⟨w32 (t1 + t2), st.a, st.b, st.c, w32 (st.d + t1), st.e, st.f, st.g⟩

/-- Compress one 64-byte block (given as bytes) into the running hash. -/
def compress (hs : List ℕ) (block : List ℕ) : List ℕ :=
  let w := extendW 48 (toWords block)
  let st0 : SHAState :=
    ⟨hs.getD 0 0, hs.getD 1 0, hs.getD 2 0, hs.getD 3 0, hs.getD 4 0, hs.getD 5 0, hs.getD 6 0, hs.getD 7 0⟩
  let st := (w.zip K64).foldl shaRound st0
  [w32 (hs.getD 0 0 + st.a), w32 (hs.getD 1 0 + st.b), w32 (hs.getD 2 0 + st.c),
   w32 (hs.getD 3 0 + st.d), w32 (hs.getD 4 0 + st.e), w32 (hs.getD 5 0 + st.f),
   w32 (hs.getD 6 0 + st.g), w32 (hs.getD 7 0 + st.h)]

/-- Fold `n` 64-byte blocks of `bytes` into the running hash. -/
def sha256Blocks : ℕ → List ℕ → List ℕ → List ℕ
  | 0, _, hs => hs
  | n + 1, bytes, hs => sha256Blocks n (bytes.drop 64) (compress hs (bytes.take 64))

/-- SHA-256 digest (32 bytes) of a byte string. -/
def sha256Bytes (msg : List ℕ) : List ℕ :=
  let padded := padMsg msg
  (sha256Blocks (padded.length / 64) padded H0).foldr (fun w acc => beBytes 4 w ++ acc) []

/-- Bytes of an ASCII string (all strings hashed here are base64url
output, hence ASCII, where UTF-8 agrees with the code points). -/
def strBytes (s : String) : List ℕ := s.data.map Char.toNat

/-- Standard base64 alphabet. -/
def b64Alphabet : List Char :=
  "ABCDEFGHIJKLMNOPQRSTUVWXYZabcdefghijklmnopqrstuvwxyz0123456789+/".data

/-- Base64 character for a 6-bit index. -/
def b64Char (i : ℕ) : Char := b64Alphabet.getD i 'A'

/-- Standard base64 encoding (with padding) of a byte list. -/
def b64Core : List ℕ → List Char
  | [] => []
  | [b1] => [b64Char (b1 / 4), b64Char (b1 % 4 * 16), '=', '=']
  | [b1, b2] => [b64Char (b1 / 4), b64Char (b1 % 4 * 16 + b2 / 16), b64Char (b2 % 16 * 4), '=']
  | b1 :: b2 :: b3 :: rest =>
    b64Char (b1 / 4) :: b64Char (b1 % 4 * 16 + b2 / 16) :: b64Char (b2 % 16 * 4 + b3 / 64)
      :: b64Char (b3 % 64) :: b64Core rest

/-- `b64url` of oauth_etsy.js 8-10: base64, URL-safe replacements, no padding. -/
def b64url (bytes : List ℕ) : String :=
  let urlSafe := (b64Core bytes).map (fun c => if c = '+' then '-' else if c = '/' then '_' else c)
  String.mk (urlSafe.reverse.dropWhile (fun c => c = '=')).reverse

/-! ## OAuth start and callback handlers (oauth_etsy.js 15-86) -/

/-- The authorization URL's query parameters as a function of the SHA-256
digest of the verifier (the verifier itself is not an input): what the
/oauth/etsy/start handler transmits upstream. -/
def authUrlFromDigest (clientId redirectUri stateTok : String) (digest : List ℕ) : List (String × String) :=
  [("response_type", "code"), ("client_id", clientId), ("redirect_uri", redirectUri),
   ("scope", "listings_r"), ("state", stateTok), ("code_challenge", b64url digest),
   ("code_challenge_method", "S256")]

/-- The /oauth/etsy/start handler (oauth_etsy.js 18-45) given the two
`crypto.randomBytes` draws: the authorization URL's query parameters in
the order the code sets them, and the `state -> verifier` entry stored
for the callback. -/
def startAuthorization (clientId redirectUri : String) (stateBytes verifierBytes : List ℕ) :
    List (String × String) × (String × String) :=
  let state := b64url stateBytes
  let code_verifier := b64url verifierBytes
  let code_challenge := b64url (sha256Bytes (strBytes code_verifier))
  ([("response_type", "code"), ("client_id", clientId), ("redirect_uri", redirectUri),
    ("scope", "listings_r"), ("state", state), ("code_challenge", code_challenge),
    ("code_challenge_method", "S256")],
   (state, code_verifier))

/-- `stateStore.get(state)`: first-match lookup in the store. -/
def lookupState (store : List (String × String)) (st : String) : Option String :=
  match store with
  | [] => none
  | (k, v) :: rest => if k = st then some v else lookupState rest st

/-- `stateStore.delete(state)` — performed only by the 10-minute
`setTimeout` expiry (oauth_etsy.js line 31), never by the callback. -/
def expireState (store : List (String × String)) (st : String) : List (String × String) :=
  store.filter (fun p => p.1 ≠ st)

/-- Outcome of the /oauth/etsy/callback handler before the network call:
400 for an invalid/expired state or missing code, else the form-encoded
token-exchange request body. -/
inductive CallbackOutcome where
  | invalidState
  | exchange (body : List (String × String))
deriving DecidableEq, Repr

/-- JS truthiness of the `code` query parameter: present and non-empty. -/
def codeTruthy (code : Option String) : Bool :=
  match code with
  | some c => c ≠ ""
  | none => false

/-- The /oauth/etsy/callback handler (oauth_etsy.js 47-63) up to the token
POST: looks the verifier up with `stateStore.get` and — notably — leaves
the store unchanged in every case. -/
def callbackStep (store : List (String × String)) (clientId redirectUri : String)
    (code : Option String) (st : String) : CallbackOutcome × List (String × String) :=
  match lookupState store st with
  | some v =>
    if codeTruthy code ∧ v ≠ "" then
      (.exchange [("grant_type", "authorization_code"), ("client_id", clientId),
        ("redirect_uri", redirectUri), ("code", (code.getD "")), ("code_verifier", v)], store)
    else (.invalidState, store)
  | none => (.invalidState, store)

/-! ## Concrete fixtures used by witnesses and counterexamples -/

/-- Environment with `MOCK_MODE=true` (the deployment default): the etsy
adapter can never run. -/
def envMock : Env := ⟨true, false, false, .error "offline"⟩

/-- Environment with live mode but no etsy credentials configured. -/
def envNoKey : Env := ⟨false, false, false, .error "offline"⟩

/-- An adapter-shaped listing that arrives with a (wrong) landed_price of
999 although price+shipping+tax is 1. -/
def suppliedLpListing : Listing :=
  { source := "Etsy", title := "mug Weird", seller := "Shop 999",
    rating := some 5, reviews := some 10, variant := "Default",
    price := some 1, shipping := some 0, estimated_tax := some 0,
    eta_days := some 3, landed_price := some 999,
    listing_url := "https://etsy.com/listing/999" }

/-- Live environment in which the etsy adapter returns `suppliedLpListing`. -/
def envEtsyBad : Env := ⟨false, true, true, .ok [suppliedLpListing]⟩

/-- Engine arguments: query "mug", only the etsy source, no filters, limit 10. -/
def argsEtsyOnly : SearchArgs := ⟨"mug", "90001", 0, 0, 0, "etsy", 10⟩

/-- Engine arguments: query "mug", default sources, no filters, limit 10. -/
def argsDefault : SearchArgs := ⟨"mug", "90001", 0, 0, 0, "etsy,shopify_agg,shopify_curated", 10⟩

/-- Engine arguments: query "mug", an allow-list with no recognized key. -/
def argsBogus : SearchArgs := ⟨"mug", "90001", 0, 0, 0, "bogus", 10⟩

/-- Engine arguments: query "mug", unrecognized allow-list, minRating 4.5
and maxPrice 25. -/
def argsFiltered : SearchArgs := ⟨"mug", "90001", (9/2), 0, 25, "bogus", 10⟩

/-- A listing with a missing `eta_days`, otherwise tied with `etaL1000`
on all other sort keys. -/
def etaMissing : Listing :=
  { source := "Etsy", title := "mug NoEta", seller := "S1",
    rating := some 4, reviews := some 7, variant := "Default",
    price := some 5, shipping := some 5, estimated_tax := some 0,
    eta_days := none, landed_price := some 10,
    listing_url := "https://etsy.com/listing/10" }

/-- A listing with `eta_days = 1000`, otherwise tied with `etaMissing`
on all other sort keys. -/
def etaL1000 : Listing :=
  { source := "Etsy", title := "mug SlowEta", seller := "S2",
    rating := some 4, reviews := some 7, variant := "Default",
    price := some 5, shipping := some 5, estimated_tax := some 0,
    eta_days := some 1000, landed_price := some 10,
    listing_url := "https://etsy.com/listing/11" }

/-- Live environment whose etsy adapter yields `etaL1000` then `etaMissing`. -/
def envEta : Env := ⟨false, true, true, .ok [etaL1000, etaMissing]⟩

/-- A listing with 120 reviews, tied with `reviews803` on landed price and
rating. -/
def reviews120 : Listing :=
  { source := "Etsy", title := "mug R120", seller := "S3",
    rating := some (9/2), reviews := some 120, variant := "Default",
    price := some 10, shipping := some 0, estimated_tax := some 0,
    eta_days := some 3, landed_price := none,
    listing_url := "https://etsy.com/listing/12" }

/-- A listing with 803 reviews, tied with `reviews120` on landed price and
rating. -/
def reviews803 : Listing :=
  { source := "Etsy", title := "mug R803", seller := "S4",
    rating := some (9/2), reviews := some 803, variant := "Default",
    price := some 10, shipping := some 0, estimated_tax := some 0,
    eta_days := some 3, landed_price := none,
    listing_url := "https://etsy.com/listing/13" }

/-- A /search request carrying only `q=mug`. -/
def rqMug : RawQuery := ⟨some "mug", none, none, none, none, none, none⟩

/-- A /search request with `q=mug` and the out-of-range `limit=500`. -/
def rq500 : RawQuery := ⟨some "mug", none, some 500, none, none, none, none⟩

/-- The engine arguments the handler derives from `rqMug`. -/
def argsParsedMug : SearchArgs := ⟨"mug", "90001", 0, 0, 0, "etsy,shopify_agg,shopify_curated", 10⟩

/-- A listing with `eta_days = 5`, tied with `etaMissing` on the first
three sort keys. -/
def etaL5 : Listing :=
  { source := "Etsy", title := "mug FastEta", seller := "S5",
    rating := some 4, reviews := some 7, variant := "Default",
    price := some 5, shipping := some 5, estimated_tax := some 0,
    eta_days := some 5, landed_price := some 10,
    listing_url := "https://etsy.com/listing/14" }

/-- Live environment whose etsy adapter yields the 120-review listing
before the 803-review listing. -/
def envReviews : Env := ⟨false, true, true, .ok [reviews120, reviews803]⟩

/-- Is the endpoint response a 200? -/
def isOk : SearchResponse → Bool
  | .ok _ => true
  | .badRequest _ => false

/-! ## Theorems -/

/-! ### Helper lemmas -/

/-- `jsSliceTo` always produces a prefix of its input. -/
theorem jsSliceTo_eq_take (e : ℚ) (xs : List Listing) :
    ∃ n, jsSliceTo e xs = xs.take n := by
  unfold jsSliceTo
  by_cases h : jsTrunc e < 0
  · exact ⟨((xs.length : ℤ) + jsTrunc e).toNat, by simp [h]⟩
  · exact ⟨(jsTrunc e).toNat, by simp [h]⟩

/-- Every engine output listing is the landed-price-normalization of some
listing surviving the filter stages. -/
theorem mem_searchAllSources {env : Env} {args : SearchArgs} {it : Listing}
    (h : it ∈ searchAllSources env args) :
    ∃ it0 ∈ filteredStage env args, it = recomputeLanded it0 := by
  unfold searchAllSources at h
  obtain ⟨n, hn⟩ := jsSliceTo_eq_take args.limit (sortItems ((filteredStage env args).map recomputeLanded))
  rw [hn] at h
  have h2 : it ∈ sortItems ((filteredStage env args).map recomputeLanded) :=
    (List.take_sublist n _).subset h
  have h3 : it ∈ (filteredStage env args).map recomputeLanded := by
    unfold sortItems at h2
    exact (List.mem_insertionSort jsLe).mp h2
  obtain ⟨it0, hm, he⟩ := List.mem_map.mp h3
  exact ⟨it0, hm, he.symm⟩

theorem recomputeLanded_rating (it : Listing) : (recomputeLanded it).rating = it.rating := rfl

theorem recomputeLanded_reviews (it : Listing) : (recomputeLanded it).reviews = it.reviews := rfl

theorem recomputeLanded_price (it : Listing) : (recomputeLanded it).price = it.price := rfl

/-- Membership in the rating filter stage. -/
theorem mem_filterRating {m : ℚ} {items : List Listing} {it : Listing}
    (h : it ∈ filterRating m items) : it ∈ items ∧ (m > 0 → num it.rating 0 ≥ m) := by
  unfold filterRating at h
  by_cases hm : m > 0
  · rw [if_pos hm] at h
    have hmf := List.mem_filter.mp h
    exact ⟨hmf.1, fun _ => of_decide_eq_true hmf.2⟩
  · rw [if_neg hm] at h
    exact ⟨h, fun hc => absurd hc hm⟩

/-- Membership in the reviews filter stage. -/
theorem mem_filterReviews {m : ℚ} {items : List Listing} {it : Listing}
    (h : it ∈ filterReviews m items) : it ∈ items ∧ (m > 0 → num it.reviews 0 ≥ m) := by
  unfold filterReviews at h
  by_cases hm : m > 0
  · rw [if_pos hm] at h
    have hmf := List.mem_filter.mp h
    exact ⟨hmf.1, fun _ => of_decide_eq_true hmf.2⟩
  · rw [if_neg hm] at h
    exact ⟨h, fun hc => absurd hc hm⟩

/-- Membership in the price filter stage. -/
theorem mem_filterPrice {m : ℚ} {items : List Listing} {it : Listing}
    (h : it ∈ filterPrice m items) : it ∈ items ∧ (m > 0 → num it.price 0 ≤ m) := by
  unfold filterPrice at h
  by_cases hm : m > 0
  · rw [if_pos hm] at h
    have hmf := List.mem_filter.mp h
    exact ⟨hmf.1, fun _ => of_decide_eq_true hmf.2⟩
  · rw [if_neg hm] at h
    exact ⟨h, fun hc => absurd hc hm⟩

/-- The comparator-induced order is exactly the spec's four-key rule. -/
theorem jsLe_iff_specLe (a b : Listing) : jsLe a b ↔ specLe a b := by
  unfold jsLe jsCmp specLe key1 key2 key3 key4
  rcases eq_or_ne (num a.landed_price 0) (num b.landed_price 0) with h1 | h1
  · rcases eq_or_ne (num a.rating 0) (num b.rating 0) with h2 | h2
    · rcases eq_or_ne (num a.reviews 0) (num b.reviews 0) with h3 | h3
      · simp only [h1, h2, h3, sub_self, ne_eq, not_true_eq_false, if_false,
          lt_self_iff_false, false_or, true_and, sub_nonpos]
      · have h3' : num b.reviews 0 - num a.reviews 0 ≠ 0 := sub_ne_zero.mpr (Ne.symm h3)
        simp only [h1, h2, sub_self, ne_eq, not_true_eq_false, if_false, h3', not_false_eq_true,
          if_true, lt_self_iff_false, false_or, true_and, sub_nonpos]
        constructor
        · intro h; exact Or.inl (lt_of_le_of_ne h (fun he => h3 he.symm))
        · rintro (h | ⟨h, _⟩)
          · exact le_of_lt h
          · exact absurd h h3
    · have h2' : num b.rating 0 - num a.rating 0 ≠ 0 := sub_ne_zero.mpr (Ne.symm h2)
      simp only [h1, sub_self, ne_eq, not_true_eq_false, if_false, h2', not_false_eq_true,
        if_true, lt_self_iff_false, false_or, true_and, sub_nonpos]
      constructor
      · intro h; exact Or.inl (lt_of_le_of_ne h (fun he => h2 he.symm))
      · rintro (h | ⟨h, _⟩)
        · exact le_of_lt h
        · exact absurd h h2
  · have h1' : num a.landed_price 0 - num b.landed_price 0 ≠ 0 := sub_ne_zero.mpr h1
    simp only [h1', not_false_eq_true, if_true, ne_eq, sub_nonpos]
    constructor
    · intro h; exact Or.inl (lt_of_le_of_ne h h1)
    · rintro (h | ⟨h, _⟩)
      · exact le_of_lt h
      · exact absurd h h1

instance : IsTotal Listing jsLe where
  total a b := by
    rw [jsLe_iff_specLe, jsLe_iff_specLe]
    unfold specLe
    rcases lt_trichotomy (key1 a) (key1 b) with h1 | h1 | h1
    · exact Or.inl (Or.inl h1)
    · rcases lt_trichotomy (key2 a) (key2 b) with h2 | h2 | h2
      · exact Or.inr (Or.inr ⟨h1.symm, Or.inl h2⟩)
      · rcases lt_trichotomy (key3 a) (key3 b) with h3 | h3 | h3
        · exact Or.inr (Or.inr ⟨h1.symm, Or.inr ⟨h2.symm, Or.inl h3⟩⟩)
        · rcases le_total (key4 a) (key4 b) with h4 | h4
          · exact Or.inl (Or.inr ⟨h1, Or.inr ⟨h2, Or.inr ⟨h3, h4⟩⟩⟩)
          · exact Or.inr (Or.inr ⟨h1.symm, Or.inr ⟨h2.symm, Or.inr ⟨h3.symm, h4⟩⟩⟩)
        · exact Or.inl (Or.inr ⟨h1, Or.inr ⟨h2, Or.inl h3⟩⟩)
      · exact Or.inl (Or.inr ⟨h1, Or.inl h2⟩)
    · exact Or.inr (Or.inl h1)

instance : IsTrans Listing jsLe where
  trans a b c hab hbc := by
    rw [jsLe_iff_specLe] at hab hbc ⊢
    unfold specLe at hab hbc ⊢
    rcases hab with h1 | ⟨h1, hab⟩
    · rcases hbc with h1' | ⟨h1', _⟩
      · exact Or.inl (h1.trans h1')
      · exact Or.inl (h1' ▸ h1)
    · rcases hbc with h1' | ⟨h1', hbc⟩
      · exact Or.inl (h1 ▸ h1')
      · refine Or.inr ⟨h1.trans h1', ?_⟩
        rcases hab with h2 | ⟨h2, hab⟩
        · rcases hbc with h2' | ⟨h2', _⟩
          · exact Or.inl (h2'.trans h2)
          · exact Or.inl (h2' ▸ h2)
        · rcases hbc with h2' | ⟨h2', hbc⟩
          · exact Or.inl (h2 ▸ h2')
          · refine Or.inr ⟨h2.trans h2', ?_⟩
            rcases hab with h3 | ⟨h3, hab⟩
            · rcases hbc with h3' | ⟨h3', _⟩
              · exact Or.inl (h3'.trans h3)
              · exact Or.inl (h3' ▸ h3)
            · rcases hbc with h3' | ⟨h3', hbc⟩
              · exact Or.inl (h3 ▸ h3')
              · exact Or.inr ⟨h3.trans h3', hab.trans hbc⟩


/-! ### C3 — rate limiter -/

/-- Running the limiter from an existing record whose window has not
elapsed for any of the request times: the i-th decision is "count so far
below capacity". -/
theorem runLimiter_within_window (ts : List ℤ) (c : ℕ) (t0 : ℤ)
    (h : ∀ t ∈ ts, t - t0 ≤ WINDOW_MS) :
    runLimiter (some ⟨c, t0⟩) ts = (List.range ts.length).map (fun i => decide (c + i < MAX_REQ)) := by
  induction ts generalizing c with
  | nil => rfl
  | cons t ts ih =>
    have ht : ¬(t - t0 > WINDOW_MS) := not_lt.mpr (h t (List.mem_cons_self t ts))
    have hts : ∀ u ∈ ts, u - t0 ≤ WINDOW_MS := fun u hu => h u (List.mem_cons_of_mem t hu)
    rw [List.length_cons, List.range_succ_eq_map, List.map_cons, List.map_map]
    by_cases hc : c ≥ MAX_REQ
    · have : runLimiter (some ⟨c, t0⟩) (t :: ts) = false :: runLimiter (some ⟨c, t0⟩) ts := by
        show (admitOne (some ⟨c, t0⟩) t).1 :: runLimiter (some (admitOne (some ⟨c, t0⟩) t).2) ts = _
        simp only [admitOne, if_neg ht, if_pos hc]
      rw [this, ih c hts]
      have h0 : (decide (c + 0 < MAX_REQ)) = false := by
        simp only [Nat.add_zero, decide_eq_false_iff_not, not_lt]
        exact hc
      rw [h0]
      congr 1
      refine List.map_congr_left (fun i _ => ?_)
      simp only [Function.comp_apply, decide_eq_decide]
      omega
    · have hclt : c < MAX_REQ := lt_of_not_ge hc
      have : runLimiter (some ⟨c, t0⟩) (t :: ts) = true :: runLimiter (some ⟨c + 1, t0⟩) ts := by
        show (admitOne (some ⟨c, t0⟩) t).1 :: runLimiter (some (admitOne (some ⟨c, t0⟩) t).2) ts = _
        simp only [admitOne, if_neg ht, if_neg hc]
      rw [this, ih (c + 1) hts]
      have h0 : (decide (c + 0 < MAX_REQ)) = true := by
        simp only [Nat.add_zero, decide_eq_true_eq]
        exact hclt
      rw [h0]
      congr 1
      refine List.map_congr_left (fun i _ => ?_)
      simp only [Function.comp_apply, decide_eq_decide]
      omega

/-- C3 (functional_correctness, confirmed): for one client identity, a
request sequence starting at `t0` whose later requests all fall within the
60-second window of `t0` gets exactly the first 30 requests admitted and
every later one denied; a denial leaves the record unchanged (no
increment); and once the window has elapsed since the window's first
request, the next request is admitted with a fresh record of count 1. -/
theorem rate_limiter_fixed_window (t0 : ℤ) (ts : List ℤ)
    (h : ∀ t ∈ ts, t - t0 ≤ WINDOW_MS) :
    runLimiter none (t0 :: ts) = (List.range (ts.length + 1)).map (fun i => decide (i < MAX_REQ)) ∧
    (∀ (r : RateRec) (now : ℤ), now - r.ts ≤ WINDOW_MS → r.count ≥ MAX_REQ →
      admitOne (some r) now = (false, r)) ∧
    (∀ (r : RateRec) (now : ℤ), now - r.ts > WINDOW_MS → admitOne (some r) now = (true, ⟨1, now⟩)) := by
  refine ⟨?_, ?_, ?_⟩
  · have h1 : runLimiter none (t0 :: ts) = true :: runLimiter (some ⟨1, t0⟩) ts := rfl
    rw [h1, runLimiter_within_window ts 1 t0 h, List.range_succ_eq_map, List.map_cons, List.map_map]
    have h0 : (decide ((0 : ℕ) < MAX_REQ)) = true := by decide
    rw [h0]
    congr 1
    refine List.map_congr_left (fun i _ => ?_)
    simp only [Function.comp_apply, decide_eq_decide]
    omega
  · intro r now hwin hcap
    simp only [admitOne, if_neg (not_lt.mpr hwin), if_pos hcap]
  · intro r now hwin
    simp only [admitOne, if_pos hwin]

/-- Witness for C3: 31 simultaneous requests from a fresh identity — the
first 30 are admitted, the 31st denied. -/
theorem rate_limiter_fixed_window_witness :
    runLimiter none (0 :: List.replicate 30 (0 : ℤ)) =
      (List.range 31).map (fun i => decide (i < MAX_REQ)) :=
  (rate_limiter_fixed_window 0 (List.replicate 30 0)
    (by intro t ht; rw [List.eq_of_mem_replicate ht]; decide)).1


/-! ### C5 — conditional filters -/

/-- C5 (functional_correctness, confirmed): each filter applies only for a
positive bound — every returned listing satisfies the rating, reviews and
price bounds when those are positive, and a bound at or below zero
excludes nothing. -/
theorem filters_conditional (env : Env) (args : SearchArgs) :
    (args.minRating > 0 → ∀ it ∈ searchAllSources env args, num it.rating 0 ≥ args.minRating) ∧
    (args.minReviews > 0 → ∀ it ∈ searchAllSources env args, num it.reviews 0 ≥ args.minReviews) ∧
    (args.maxPrice > 0 → ∀ it ∈ searchAllSources env args, num it.price 0 ≤ args.maxPrice) ∧
    (args.minRating ≤ 0 → ∀ items, filterRating args.minRating items = items) ∧
    (args.minReviews ≤ 0 → ∀ items, filterReviews args.minReviews items = items) ∧
    (args.maxPrice ≤ 0 → ∀ items, filterPrice args.maxPrice items = items) := by
  refine ⟨?_, ?_, ?_, ?_, ?_, ?_⟩
  · intro hpos it hit
    obtain ⟨it0, hm, he⟩ := mem_searchAllSources hit
    unfold filteredStage at hm
    have h1 := (mem_filterPrice hm).1
    have h2 := (mem_filterReviews h1).1
    have h3 := (mem_filterRating h2).2 hpos
    rw [he, recomputeLanded_rating]
    exact h3
  · intro hpos it hit
    obtain ⟨it0, hm, he⟩ := mem_searchAllSources hit
    unfold filteredStage at hm
    have h1 := (mem_filterPrice hm).1
    have h2 := (mem_filterReviews h1).2 hpos
    rw [he, recomputeLanded_reviews]
    exact h2
  · intro hpos it hit
    obtain ⟨it0, hm, he⟩ := mem_searchAllSources hit
    unfold filteredStage at hm
    have h1 := (mem_filterPrice hm).2 hpos
    rw [he, recomputeLanded_price]
    exact h1
  · intro hle items
    unfold filterRating
    rw [if_neg (not_lt.mpr hle)]
  · intro hle items
    unfold filterReviews
    rw [if_neg (not_lt.mpr hle)]
  · intro hle items
    unfold filterPrice
    rw [if_neg (not_lt.mpr hle)]

/-- Witness for C5: with `minRating = 4.5` and `maxPrice = 25` over the
full mock set, the surviving mock Alpha listing has rating at least 4.5
and price at most 25, and a zero bound filters nothing. -/
theorem filters_conditional_witness :
    num (recomputeLanded ((mockItemsForQuery "mug").headD suppliedLpListing)).rating 0 ≥
      argsFiltered.minRating ∧
    num (recomputeLanded ((mockItemsForQuery "mug").headD suppliedLpListing)).price 0 ≤
      argsFiltered.maxPrice ∧
    filterReviews argsFiltered.minReviews (mockItemsForQuery "mug") = mockItemsForQuery "mug" := by
  refine ⟨?_, ?_, ?_⟩
  · exact (filters_conditional envMock argsFiltered).1 (by decide!)
      (recomputeLanded ((mockItemsForQuery "mug").headD suppliedLpListing)) (by decide!)
  · exact (filters_conditional envMock argsFiltered).2.2.1 (by decide!)
      (recomputeLanded ((mockItemsForQuery "mug").headD suppliedLpListing)) (by decide!)
  · exact (filters_conditional envMock argsFiltered).2.2.2.2.1 (by decide!) (mockItemsForQuery "mug")


/-! ### C1 — landed price recomputation -/

/-- C1 counterexample: a live etsy adapter supplies a listing whose
`landed_price` is 999 although price+shipping+tax rounds to 1; the engine
keeps the supplied 999 (server.js line 91 prefers a finite supplied value),
so the output violates `landed_price = round2(price+shipping+tax)`. -/
theorem landed_price_kept_counterexample :
    (searchAllSources envEtsyBad argsEtsyOnly).map Listing.landed_price = [some 999] ∧
    (searchAllSources envEtsyBad argsEtsyOnly).map
      (fun it => some (landed (num it.price 0) (num it.shipping 0) (num it.estimated_tax 0))) = [some 1] := by
  decide!

/-- C1 amended: the engine recomputes `landed_price` only as a fallback —
every output listing carries `num supplied (landed price shipping tax)`,
which is the freshly computed landed price exactly when the adapter
supplied none; mock-generated listings always satisfy the
`landed_price = round2(price+shipping+tax)` invariant. -/
theorem landed_price_fallback_recompute (env : Env) (args : SearchArgs) :
    (∀ it ∈ searchAllSources env args, ∃ it0 ∈ filteredStage env args,
      it = recomputeLanded it0 ∧
      it.landed_price = some (num it0.landed_price
        (landed (num it0.price 0) (num it0.shipping 0) (num it0.estimated_tax 0)))) ∧
    (∀ it0 : Listing, it0.landed_price = none →
      (recomputeLanded it0).landed_price =
        some (landed (num it0.price 0) (num it0.shipping 0) (num it0.estimated_tax 0))) ∧
    (∀ q : String, ∀ it ∈ mockItemsForQuery q,
      it.landed_price = some (landed (num it.price 0) (num it.shipping 0) (num it.estimated_tax 0))) := by
  refine ⟨?_, ?_, ?_⟩
  · intro it hit
    obtain ⟨it0, hm, he⟩ := mem_searchAllSources hit
    exact ⟨it0, hm, he, by rw [he]; rfl⟩
  · intro it0 h0
    unfold recomputeLanded num
    rw [h0]
    rfl
  · intro q it hit
    unfold mockItemsForQuery at hit
    simp only [List.map_cons, List.map_nil, List.mem_cons, List.not_mem_nil, or_false] at hit
    rcases hit with h | h | h | h <;> (subst h; rfl)

/-- Witness for C1 (amended): the first mock listing for "mug" satisfies
the landed-price invariant. -/
theorem landed_price_fallback_recompute_witness :
    ((mockItemsForQuery "mug").headD suppliedLpListing).landed_price =
      some (landed (num ((mockItemsForQuery "mug").headD suppliedLpListing).price 0)
        (num ((mockItemsForQuery "mug").headD suppliedLpListing).shipping 0)
        (num ((mockItemsForQuery "mug").headD suppliedLpListing).estimated_tax 0)) :=
  (landed_price_fallback_recompute envMock argsDefault).2.2 "mug"
    ((mockItemsForQuery "mug").headD suppliedLpListing) (by decide!)

/-! ### C2 — OAuth state reuse -/

/-- C2 counterexample: after a successful callback for state "s", a second
callback with the same state does not fail — the verifier was never
removed from the store. -/
theorem oauth_state_reused_counterexample :
    (callbackStep (callbackStep [("s", "v")] "cid" "ruri" (some "c") "s").2
      "cid" "ruri" (some "c") "s").1 ≠ CallbackOutcome.invalidState ∧
    (callbackStep [("s", "v")] "cid" "ruri" (some "c") "s").2 = [("s", "v")] := by
  decide!

/-- Lookup after the timer-driven expiry always misses. -/
theorem lookupState_expireState (store : List (String × String)) (st : String) :
    lookupState (expireState store st) st = none := by
  induction store with
  | nil => rfl
  | cons p rest ih =>
    unfold expireState at ih ⊢
    by_cases h : p.1 = st
    · simp only [List.filter_cons, h]
      rw [if_neg (by simp)]
      exact ih
    · simp only [List.filter_cons]
      rw [if_pos (by simpa using h)]
      unfold lookupState
      rw [if_neg h]
      exact ih

/-- C2 amended: the callback rejects with `InvalidOrExpiredState` exactly
when `code` is falsy or the state is absent from the store (including
after the 10-minute timer deletes it); on success it leaves the store
unchanged, so the same state can be used again — states are not
single-use. -/
theorem oauth_callback_not_single_use (store : List (String × String))
    (cid ruri : String) (code : Option String) (st : String) :
    (codeTruthy code = false → (callbackStep store cid ruri code st).1 = .invalidState) ∧
    (lookupState store st = none → (callbackStep store cid ruri code st).1 = .invalidState) ∧
    (∀ v, lookupState store st = some v → v ≠ "" → codeTruthy code = true →
      callbackStep store cid ruri code st =
        (.exchange [("grant_type", "authorization_code"), ("client_id", cid),
          ("redirect_uri", ruri), ("code", code.getD ""), ("code_verifier", v)], store)) ∧
    lookupState (expireState store st) st = none := by
  refine ⟨?_, ?_, ?_, lookupState_expireState store st⟩
  · intro hc
    cases hl : lookupState store st with
    | none => simp only [callbackStep, hl]
    | some v =>
      have hcv : ¬(codeTruthy code = true ∧ v ≠ "") := fun hcv => Bool.false_ne_true (hc ▸ hcv.1)
      simp only [callbackStep, hl, if_neg hcv]
  · intro hl
    simp only [callbackStep, hl]
  · intro v hl hv hc
    simp only [callbackStep, hl]
    rw [if_pos (show codeTruthy code = true ∧ v ≠ "" from ⟨hc, hv⟩)]

/-- Witness for C2 (amended): a concrete valid callback succeeds and
returns the store unchanged. -/
theorem oauth_callback_not_single_use_witness :
    callbackStep [("s", "v")] "cid" "ruri" (some "c") "s" =
      (.exchange [("grant_type", "authorization_code"), ("client_id", "cid"),
        ("redirect_uri", "ruri"), ("code", "c"), ("code_verifier", "v")], [("s", "v")]) :=
  (oauth_callback_not_single_use [("s", "v")] "cid" "ruri" (some "c") "s").2.2.1 "v"
    (by decide) (by decide) (by decide)


/-! ### C4 — four-key sort order -/

/-- C4 counterexample: with every other key tied, the engine sorts a
listing with a missing `eta_days` (sentinel 999) before a listing with
the present value `eta_days = 1000` — so "missing sorts after any
present eta_days" fails as stated. -/
theorem sort_eta_sentinel_counterexample :
    (searchAllSources envEta argsEtsyOnly).map Listing.eta_days = [none, some 1000] ∧
    key1 etaMissing = key1 etaL1000 ∧ key2 etaMissing = key2 etaL1000 ∧
    key3 etaMissing = key3 etaL1000 := by
  decide!

/-- C4 amended: the engine output is sorted by the four-key rule with a
missing `eta_days` treated as the sentinel 999 — hence it sorts after any
listing (tied on the first three keys) whose present `eta_days` is below
999 — and the 803-review listing orders before the 120-review listing
when landed price and rating are tied. -/
theorem sort_four_key_rule (env : Env) (args : SearchArgs) :
    (searchAllSources env args).Sorted specLe ∧
    (∀ a b : Listing, key1 a = key1 b → key2 a = key2 b → key3 a = key3 b →
      a.eta_days = none → ∀ e : ℚ, b.eta_days = some e → e < 999 →
      specLe b a ∧ ¬ specLe a b) ∧
    (searchAllSources envReviews argsEtsyOnly).map Listing.reviews = [some 803, some 120] := by
  refine ⟨?_, ?_, by decide!⟩
  · obtain ⟨n, hn⟩ := jsSliceTo_eq_take args.limit (sortItems ((filteredStage env args).map recomputeLanded))
    unfold searchAllSources
    rw [hn]
    have hs : (sortItems ((filteredStage env args).map recomputeLanded)).Sorted jsLe := by
      unfold sortItems
      exact List.sorted_insertionSort jsLe _
    have hs2 : (sortItems ((filteredStage env args).map recomputeLanded)).Sorted specLe :=
      List.Pairwise.imp (fun hab => (jsLe_iff_specLe _ _).mp hab) hs
    exact List.Pairwise.sublist (List.take_sublist n _) hs2
  · intro a b h1 h2 h3 ha e hb he
    have ha4 : key4 a = 999 := by unfold key4 num; rw [ha]; rfl
    have hb4 : key4 b = e := by unfold key4 num; rw [hb]; rfl
    constructor
    · unfold specLe
      exact Or.inr ⟨h1.symm, Or.inr ⟨h2.symm, Or.inr ⟨h3.symm, by rw [ha4, hb4]; exact he.le⟩⟩⟩
    · intro hcon
      unfold specLe at hcon
      rcases hcon with h | ⟨-, h | ⟨-, h | ⟨-, h4⟩⟩⟩
      · exact absurd h (by rw [h1]; exact lt_irrefl _)
      · exact absurd h (by rw [h2]; exact lt_irrefl _)
      · exact absurd h (by rw [h3]; exact lt_irrefl _)
      · rw [ha4, hb4] at h4
        exact absurd h4 (not_le.mpr he)

/-- Witness for C4 (amended): a concrete tied pair where the present
`eta_days = 5` listing strictly precedes the missing-eta listing. -/
theorem sort_four_key_rule_witness :
    specLe etaL5 etaMissing ∧ ¬ specLe etaMissing etaL5 :=
  (sort_four_key_rule envMock argsDefault).2.1 etaMissing etaL5
    (by decide!) (by decide!) (by decide!) (by decide!) 5 (by decide!) (by decide!)


/-! ### Length and nonemptiness helpers -/

/-- Batteries `Rat.floor` agrees with Mathlib's `Int.floor` on ℚ. -/
theorem ratFloor_eq_intFloor (q : ℚ) : q.floor = ⌊q⌋ := (Rat.floor_def' q).trans Rat.floor_def.symm

/-- For a nonnegative end index, the sliced length is bounded by the index. -/
theorem length_jsSliceTo_le_rat (e : ℚ) (he : 0 ≤ e) (xs : List Listing) :
    ((jsSliceTo e xs).length : ℚ) ≤ e := by
  have htr : jsTrunc e = e.floor := by unfold jsTrunc; rw [if_pos he]
  have h0 : (0:ℤ) ≤ e.floor := by rw [ratFloor_eq_intFloor]; exact Int.floor_nonneg.mpr he
  simp only [jsSliceTo, htr, if_neg (not_lt.mpr h0)]
  have hlen : ((xs.take e.floor.toNat).length : ℤ) ≤ e.floor := by
    rw [List.length_take]
    calc ((min e.floor.toNat xs.length : ℕ) : ℤ) ≤ (e.floor.toNat : ℤ) := by
          exact_mod_cast Nat.min_le_left _ _
      _ = e.floor := Int.toNat_of_nonneg h0
  calc ((xs.take e.floor.toNat).length : ℚ) ≤ ((e.floor : ℤ) : ℚ) := by exact_mod_cast hlen
    _ ≤ e := by rw [ratFloor_eq_intFloor]; exact Int.floor_le e

/-- Slicing never lengthens a list. -/
theorem length_jsSliceTo_le_len (e : ℚ) (xs : List Listing) :
    (jsSliceTo e xs).length ≤ xs.length := by
  obtain ⟨n, hn⟩ := jsSliceTo_eq_take e xs
  rw [hn, List.length_take]
  exact Nat.min_le_right n xs.length

/-- The mock generator always yields four listings. -/
theorem mockItems_length (q : String) : (mockItemsForQuery q).length = 4 := rfl

/-- The post-fallback list is never empty. -/
theorem afterFallback_ne_nil (env : Env) (args : SearchArgs) : afterFallback env args ≠ [] := by
  by_cases h : mergedItems env args = []
  · simp only [afterFallback, h, if_pos]
    intro hc
    have := congrArg List.length hc
    rw [mockItems_length] at this
    exact absurd this (by simp)
  · simp only [afterFallback, if_neg h]
    exact h

/-- A non-empty filter stage and a limit of at least 1 give a non-empty
engine output. -/
theorem searchAllSources_ne_nil {env : Env} {args : SearchArgs}
    (hb : filteredStage env args ≠ []) (hl : 1 ≤ args.limit) :
    searchAllSources env args ≠ [] := by
  have hlen : (sortItems ((filteredStage env args).map recomputeLanded)).length =
      (filteredStage env args).length := by
    unfold sortItems
    rw [List.length_insertionSort, List.length_map]
  have hpos : 0 < (sortItems ((filteredStage env args).map recomputeLanded)).length := by
    rw [hlen]
    exact List.length_pos.mpr hb
  have h0 : (0:ℚ) ≤ args.limit := le_trans (by norm_num) hl
  have ht : (1:ℤ) ≤ jsTrunc args.limit := by
    unfold jsTrunc
    rw [if_pos h0, ratFloor_eq_intFloor]
    exact Int.le_floor.mpr (by exact_mod_cast hl)
  intro hc
  have hslice : searchAllSources env args =
      List.take (jsTrunc args.limit).toNat (sortItems ((filteredStage env args).map recomputeLanded)) := by
    unfold searchAllSources
    simp only [jsSliceTo]
    rw [if_neg (not_lt.mpr (le_trans (by norm_num) ht))]
  rw [hslice] at hc
  rcases List.take_eq_nil_iff.mp hc with h | h
  · omega
  · rw [h] at hpos
    exact absurd hpos (by simp)

/-! ### C6 — single truncation to limit -/

/-- C6 (functional_correctness, confirmed): whenever the endpoint answers
200, its items are exactly the engine's output (the endpoint applies no
truncation of its own), of length at most the clamped limit and at most
the number of listings surviving the filters. -/
theorem limit_single_truncation (env : Env) (rq : RawQuery) (items : List Listing)
    (h : searchEndpoint env rq = .ok items) :
    ∃ args, parseArgs rq = some args ∧
      items = searchAllSources env args ∧
      ((items.length : ℚ) ≤ args.limit) ∧
      items.length ≤ (filteredStage env args).length := by
  cases hp : parseArgs rq with
  | none =>
    simp only [searchEndpoint, hp] at h
    exact SearchResponse.noConfusion h
  | some args =>
    simp only [searchEndpoint, hp, SearchResponse.ok.injEq] at h
    have hlim : 1 ≤ args.limit := by
      simp only [parseArgs] at hp
      split at hp
      · exact absurd hp (by simp)
      · rw [Option.some_inj] at hp
        rw [← hp]
        exact le_max_left 1 _
    refine ⟨args, rfl, h.symm, ?_, ?_⟩
    · rw [← h]
      exact length_jsSliceTo_le_rat args.limit (le_trans (by norm_num) hlim) _
    · rw [← h]
      unfold searchAllSources
      calc (jsSliceTo args.limit (sortItems ((filteredStage env args).map recomputeLanded))).length
          ≤ (sortItems ((filteredStage env args).map recomputeLanded)).length :=
            length_jsSliceTo_le_len _ _
        _ = (filteredStage env args).length := by
            unfold sortItems
            rw [List.length_insertionSort, List.length_map]

/-- Witness for C6: the plain `q=mug` request yields the engine output
untouched, within the default limit 10. -/
theorem limit_single_truncation_witness :
    ((searchAllSources envMock argsParsedMug).length : ℚ) ≤ argsParsedMug.limit := by
  obtain ⟨args, hp, hi, hl, -⟩ := limit_single_truncation envMock rqMug
    (searchAllSources envMock argsParsedMug) (by decide!)
  have he : args = argsParsedMug := by
    have h2 : parseArgs rqMug = some argsParsedMug := by decide!
    rw [hp] at h2
    exact Option.some_inj.mp h2
  rw [he] at hl
  exact hl

/-! ### C7 — deterministic mock fallback -/

/-- C7 (functional_correctness, confirmed): whenever the etsy adapter
contributes nothing (mock mode, missing credentials, not allowed, failed,
or empty), a search with the default (zero) filter bounds and a limit of
at least 1 is non-empty, and its result is independent of the adapter
environment — the same query yields the same listings. -/
theorem mock_fallback_deterministic (env env2 : Env) (args : SearchArgs)
    (h1 : etsyContribution env args.sourcesCsv = [])
    (h2 : etsyContribution env2 args.sourcesCsv = [])
    (hr : args.minRating ≤ 0) (hv : args.minReviews ≤ 0) (hp : args.maxPrice ≤ 0)
    (hl : 1 ≤ args.limit) :
    searchAllSources env args ≠ [] ∧
    searchAllSources env args = searchAllSources env2 args := by
  have hm : mergedItems env args = mergedItems env2 args := by
    unfold mergedItems
    rw [h1, h2]
  have hf : filteredStage env args = afterFallback env args := by
    unfold filteredStage filterRating filterReviews filterPrice
    rw [if_neg (not_lt.mpr hp), if_neg (not_lt.mpr hv), if_neg (not_lt.mpr hr)]
  constructor
  · exact searchAllSources_ne_nil (fun hc => afterFallback_ne_nil env args (hf.symm.trans hc)) hl
  · unfold searchAllSources filteredStage afterFallback
    rw [hm]

/-- Witness for C7: in mock mode and in a credential-less live mode, the
default "mug" search is non-empty and identical. -/
theorem mock_fallback_deterministic_witness :
    searchAllSources envMock argsDefault ≠ [] ∧
    searchAllSources envMock argsDefault = searchAllSources envNoKey argsDefault :=
  mock_fallback_deterministic envMock envNoKey argsDefault (by decide!) (by decide!)
    (by decide!) (by decide!) (by decide!) (by decide!)


/-! ### C9 — limit validation vs clamping -/

/-- C9 counterexample: a request with `limit=500` is not rejected — the
endpoint answers 200 and silently clamps the effective limit to 100. -/
theorem limit_out_of_range_counterexample :
    isOk (searchEndpoint envMock rq500) = true ∧
    (parseArgs rq500).map SearchArgs.limit = some 100 := by
  decide!

/-- C9 amended: the endpoint's only 400 is for a missing/blank `q`; an
out-of-range `limit` is silently clamped into [1, 100] (absent or
non-numeric values default to 10) and the request succeeds with the
engine's items. -/
theorem validation_and_clamping (env : Env) (rq : RawQuery) :
    (strD rq.q "" = "" → searchEndpoint env rq = .badRequest "Missing q") ∧
    (∀ args, parseArgs rq = some args →
      1 ≤ args.limit ∧ args.limit ≤ 100 ∧
      searchEndpoint env rq = .ok (searchAllSources env args)) := by
  constructor
  · intro hq
    have hp : parseArgs rq = none := by
      simp only [parseArgs, hq]
      rfl
    simp only [searchEndpoint, hp]
  · intro args hp
    have hbounds : 1 ≤ args.limit ∧ args.limit ≤ 100 := by
      simp only [parseArgs] at hp
      split at hp
      · exact absurd hp (by simp)
      · rw [Option.some_inj] at hp
        rw [← hp]
        exact ⟨le_max_left 1 _, max_le (by norm_num) (min_le_left 100 _)⟩
    exact ⟨hbounds.1, hbounds.2, by simp only [searchEndpoint, hp]⟩

/-- Witness for C9 (amended): the plain `q=mug` request parses to the
default limit 10 (inside [1, 100]) and succeeds. -/
theorem validation_and_clamping_witness :
    1 ≤ argsParsedMug.limit ∧ argsParsedMug.limit ≤ 100 ∧
    searchEndpoint envMock rqMug = .ok (searchAllSources envMock argsParsedMug) :=
  (validation_and_clamping envMock rqMug).2 argsParsedMug (by decide!)

/-! ### C10 — unrecognized allow-list still serves mock listings -/

/-- C10 (functional_correctness, confirmed): when the `sources` allow-list
contains no recognized key, all sources are excluded and the pre-filter
merge is empty, yet the engine falls back to the full mock set and (with
the default zero filter bounds and a limit of at least 1) returns a
non-empty result — listings whose sources were all outside the requested
allow-list. -/
theorem unrecognized_sources_fallback (env : Env) (args : SearchArgs)
    (hk : ∀ k ∈ parseAllow args.sourcesCsv,
      k ≠ "etsy" ∧ k ≠ "shopify_agg" ∧ k ≠ "shopify_curated")
    (hr : args.minRating ≤ 0) (hv : args.minReviews ≤ 0) (hp : args.maxPrice ≤ 0)
    (hl : 1 ≤ args.limit) :
    mergedItems env args = [] ∧
    afterFallback env args = mockItemsForQuery args.q ∧
    searchAllSources env args =
      jsSliceTo args.limit (sortItems ((mockItemsForQuery args.q).map recomputeLanded)) ∧
    searchAllSources env args ≠ [] := by
  have hc : canEtsy env args.sourcesCsv = false := by
    unfold canEtsy
    rw [decide_eq_false (fun hmem => (hk _ hmem).1 rfl)]
    exact Bool.and_false _
  have hec : etsyContribution env args.sourcesCsv = [] := by
    simp only [etsyContribution, hc]
    rfl
  have hsc : shopifyContribution args.sourcesCsv args.q = [] := by
    unfold shopifyContribution
    rw [if_neg]
    rintro (hmem | hmem)
    · exact (hk _ hmem).2.1 rfl
    · exact (hk _ hmem).2.2 rfl
  have hm : mergedItems env args = [] := by
    unfold mergedItems
    rw [hec, hsc]
    rfl
  have haf : afterFallback env args = mockItemsForQuery args.q := by
    simp only [afterFallback, hm, if_pos]
  have hf : filteredStage env args = mockItemsForQuery args.q := by
    unfold filteredStage filterRating filterReviews filterPrice
    rw [if_neg (not_lt.mpr hp), if_neg (not_lt.mpr hv), if_neg (not_lt.mpr hr)]
    exact haf
  refine ⟨hm, haf, ?_, ?_⟩
  · unfold searchAllSources
    rw [hf]
  · refine searchAllSources_ne_nil ?_ hl
    rw [hf]
    intro hcc
    have := congrArg List.length hcc
    rw [mockItems_length] at this
    exact absurd this (by simp)

/-- Witness for C10: the allow-list "bogus" recognizes nothing, yet the
"mug" search returns the mock fallback non-empty. -/
theorem unrecognized_sources_fallback_witness :
    mergedItems envMock argsBogus = [] ∧ searchAllSources envMock argsBogus ≠ [] := by
  obtain ⟨h1, -, -, h4⟩ := unrecognized_sources_fallback envMock argsBogus
    (by decide!) (by decide!) (by decide!) (by decide!) (by decide!)
  exact ⟨h1, h4⟩


/-! ### C8 — PKCE authorization URL -/

/-- Sanity check of the SHA-256 model against the FIPS 180-4 test vector
for "abc", composed with the URL-safe base64 encoding. -/
theorem sha256_b64url_abc :
    b64url (sha256Bytes (strBytes "abc")) = "ungWv48Bz-pBQUDeXa4iI7ADYaOWF3qctBD_YfIAFa0" := by
  decide!

/-- Sanity check of the base64url model: "Hello" encodes without padding. -/
theorem b64url_hello : b64url [72, 101, 108, 108, 111] = "SGVsbG8" := by
  decide!

/-- C8 (functional_correctness, confirmed): the authorization URL built by
the /oauth/etsy/start handler factors through the SHA-256 digest of the
code verifier — the verifier itself is never an input to the URL; the
parameters carried are exactly response_type=code, client_id,
redirect_uri, scope, state, code_challenge = base64url(SHA-256(verifier))
without padding, and code_challenge_method=S256. -/
theorem pkce_url_carries_digest_only (clientId redirectUri : String)
    (stateBytes verifierBytes : List ℕ) :
    startAuthorization clientId redirectUri stateBytes verifierBytes =
      (authUrlFromDigest clientId redirectUri (b64url stateBytes)
        (sha256Bytes (strBytes (b64url verifierBytes))),
       (b64url stateBytes, b64url verifierBytes)) ∧
    (startAuthorization clientId redirectUri stateBytes verifierBytes).1.lookup "code_challenge" =
      some (b64url (sha256Bytes (strBytes (b64url verifierBytes)))) ∧
    (startAuthorization clientId redirectUri stateBytes verifierBytes).1.lookup
      "code_challenge_method" = some "S256" := by
  refine ⟨rfl, ?_, ?_⟩ <;> rfl

end CheapFinder
